import Mathlib

/-!
Shallow embedding of the acquisition core of labjacksa.py (classes StreamReader and
DataHandler) and proofs about it.

Modelling conventions:
* Machine floats of the Python code carry exact values here (ℚ); sample rates are the
  integers the GUI supplies (ℕ).
* The LabJack device (module u6 / LabJackPython) is an external capability.  Its packet
  stream is a list of StreamItem values, its packet decoder (processStreamData) is a
  function parameter, and connect/streamConfig success is a Bool/Option parameter.
* threading.Event flags are Bool fields of the controller state.  A value read from a
  shared field at a given instant is supplied by an environment function where the code
  performs repeated live reads (see streamLoop).
* Exceptions are Except values; a Python statement sequence whose tail can raise returns
  the state mutations already performed alongside the Except result.
-/

set_option autoImplicit false

/- The rational arithmetic of the embedding must evaluate on concrete inputs; the
library marks these operations irreducible for unification performance only. -/
set_option allowUnsafeReducibility true in
attribute [semireducible] Rat.mul Rat.add Rat.sub Rat.inv Rat.ofScientific

deriving instance DecidableEq for Except

/-- Device-imposed aggregate sample-rate ceiling (labjacksa.py line 57). -/
def MAXSAMPLERATE : ℕ := 50000

/-- A raw stream packet as buffered by the collection thread: the fields of the dict
yielded by u6 streamData(convert=False) that the program reads: numPackets (with the
device constant streamSamplesPerPacket it gives the aggregate sample count), missed
(dropped-sample report) and the undecoded payload in result. -/
structure RawPacket where
  numPackets : ℕ
  missed : ℕ
  result : List ℚ
deriving DecidableEq

/-- The mutable state of a StreamReader instance: its deque buffer, the three
threading.Event flags, the sampling configuration, the status string, whether
self._device is a live connection and whether self._acq_thread is alive
(None counts as not alive). -/
structure SRState where
  buffer : List RawPacket
  data_request : Bool
  data_ready : Bool
  data_stop : Bool
  channels : List ℕ
  rate : ℕ
  t_integrate : ℚ
  status : String
  device_connected : Bool
  thread_alive : Bool
deriving DecidableEq

/-- Result of start_acquisition: the returned Bool, the state afterwards, and whether a
new collection thread was spawned by this call. -/
structure StartResult where
  ret : Bool
  state : SRState
  spawned : Bool
deriving DecidableEq

/-- StreamReader.start_acquisition (lines 127-146).  connectOk says whether a connect()
attempt would succeed (the u6 constructor is external).  The body:
connect if needed (failure caught, status set, return False); reject an empty channel
list; reject self._rate > MAXSAMPLERATE / len(self._channels) (Python float division,
exact here); otherwise spawn the thread if none is alive (clearing data_stop first) and
set data_request in every successful call. -/
def start_acquisition (connectOk : Bool) (s : SRState) : StartResult :=
  if !s.device_connected && !connectOk then
    ⟨false, { s with status := "No hardware connected." }, false⟩
  else
    let s := { s with device_connected := true }
    if s.channels.length = 0 then
      ⟨false, { s with status := "No channels selected." }, false⟩
    else if ((s.rate : ℚ)) > (MAXSAMPLERATE : ℚ) / (s.channels.length : ℚ) then
      ⟨false, { s with status :=
        "Sample rate too high for " ++ toString s.channels.length ++ " channels." },
        false⟩
    else if !s.thread_alive then
      ⟨true, { s with data_stop := false, thread_alive := true, data_request := true },
        true⟩
    else
      ⟨true, { s with data_request := true }, false⟩

/-- StreamReader.stop_acquisition (lines 148-155): clear data_request, set data_stop,
join the thread with a 2 × t_integrate timeout.  joinExits says whether the thread
terminated within that wait (thread scheduling is external); if it did not, only the
status is set — the thread is not killed. -/
def stop_acquisition (joinExits : Bool) (s : SRState) : SRState :=
  let s := { s with data_request := false, data_stop := true }
  if s.thread_alive then
    if joinExits then { s with thread_alive := false }
    else { s with status := "Acquisiton thread timed out" }
  else s

/-- The per-channel data dict accumulated by fetch_data: Python dicts preserve insertion
order, so an ordered association list. -/
abbrev ChannelData := List (String × List ℚ)

/-- One step of the dict merge in fetch_data (lines 166-170): for an item (k, v) of a
decoded packet, extend data[k] if the key is present, else insert it at the end. -/
def mergeOne (data : ChannelData) (kv : String × List ℚ) : ChannelData :=
  if (data.map Prod.fst).contains kv.1 then
    data.map fun e => if e.1 = kv.1 then (e.1, e.2 ++ kv.2) else e
  else
    data ++ [kv]

/-- Merging one decoded packet into the accumulated data, item by item in the decoded
dict's order. -/
def mergePacket (decode : RawPacket → ChannelData) (data : ChannelData)
    (p : RawPacket) : ChannelData :=
  (decode p).foldl mergeOne data

/-- The drain loop of fetch_data (lines 161-170): popleft packets in FIFO order, sum the
missed counts, merge each decoded packet.  Returns the data dict and the dropped total. -/
def drain (decode : RawPacket → ChannelData) (buf : List RawPacket) :
    ChannelData × ℕ :=
  buf.foldl (fun acc p => (mergePacket decode acc.1 p, acc.2 + p.missed)) ([], 0)

/-- Python max() over a list: raises ValueError on an empty sequence. -/
def pyMax (l : List ℕ) : Except String ℕ :=
  match l with
  | [] => Except.error "max() arg is an empty sequence"
  | x :: xs => Except.ok (xs.foldl Nat.max x)

/-- The dict returned by fetch_data (lines 176-177). -/
structure Window where
  rate : ℕ
  n : ℕ
  channels : ChannelData
  dropped : ℕ
deriving DecidableEq

/-- StreamReader.fetch_data after its data_ready.wait() call has returned
(lines 160-177): drain the whole buffer through the device decode capability, set
data_request again when another acquisition is wanted and the thread is alive, then
build the result dict; npoints = max(map(len, data.values())) raises ValueError when
no packet produced any channel data.  The state mutations performed before that raise
(buffer drained, data_request set) persist, so the state is returned in either case.
Note the function reads self._rate live for the rate field and never touches
data_ready. -/
def fetch_data (decode : RawPacket → ChannelData) (another : Bool) (s : SRState) :
    Except String Window × SRState :=
  let d := drain decode s.buffer
  let s1 := { s with buffer := [] }
  let s2 := if another && s1.thread_alive then { s1 with data_request := true } else s1
  match pyMax (d.1.map fun e => e.2.length) with
  | Except.error e => (Except.error e, s2)
  | Except.ok npoints => (Except.ok ⟨s2.rate, npoints, d.1, d.2⟩, s2)

/-- threading.Event.wait called with NO timeout argument, as fetch_data does on
data_ready (line 159), in the absence of any concurrent actor that sets the flag: it
completes if and only if the flag is already set, no matter how many scheduler steps
elapse. -/
def eventWaitNoTimeout (flag : Bool) (_steps : ℕ) : Bool := flag

/-- A whole fetch_data call including its leading data_ready.wait(): none means the call
has not returned after the given number of scheduler steps. -/
def fetch_data_call (decode : RawPacket → ChannelData) (another : Bool) (s : SRState)
    (steps : ℕ) : Option (Except String Window × SRState) :=
  if eventWaitNoTimeout s.data_ready steps then some (fetch_data decode another s)
  else none

/-- fetch_data never completes from this state (no concurrent setter of data_ready):
there is no number of scheduler steps after which the call has returned. -/
def fetchNeverReturns (decode : RawPacket → ChannelData) (another : Bool)
    (s : SRState) : Prop :=
  ∀ steps, fetch_data_call decode another s steps = none

/-- One value produced by the device stream generator inside the acquisition loop:
a packet, a None (line 228), or a raised exception (line 221-227). -/
inductive StreamItem where
  | pkt : RawPacket → StreamItem
  | nodata : StreamItem
  | devErr : String → StreamItem
deriving DecidableEq

/-- Result of the inner packet-receive loop (lines 217-239): the appended buffer, the
final count, the captured exception if any, the value of data_stop at loop exit and the
status string. -/
structure LoopResult where
  buf : List RawPacket
  count : ℕ
  error : Option String
  stopFlag : Bool
  status : String
deriving DecidableEq

/-- The inner packet-receive loop of _acquire_loop (lines 217-239).

The while condition is count < self._t_integrate * self._rate * nchannels: nchannels is
the local snapshot but self._t_integrate and self._rate are read LIVE from the shared
object on every check; live i gives their values at the i-th check (a constant function
when no concurrent mutation happens).  extStop i tells whether some other actor has set
data_stop by the i-th check.  Each iteration: re-check the condition, check data_stop,
pull the next stream item; an exception sets data_stop, records the error and breaks; a
None item sets the status and continues; a packet adds numPackets × spp to count and is
appended.  none is returned when the item list is exhausted while the loop still wants a
packet (the real next(stream) call would block). -/
def streamLoop (nch spp : ℕ) (live : ℕ → ℚ × ℚ) (extStop : ℕ → Bool) :
    List StreamItem → ℕ → ℕ → List RawPacket → Bool → String → Option LoopResult
  | [], i, count, buf, stopFlag, status =>
    if (count : ℚ) < (live i).1 * (live i).2 * (nch : ℚ) then
      if stopFlag || extStop i then some ⟨buf, count, none, true, status⟩
      else none
    else
      some ⟨buf, count, none, stopFlag, status⟩
  | item :: rest, i, count, buf, stopFlag, status =>
    if (count : ℚ) < (live i).1 * (live i).2 * (nch : ℚ) then
      if stopFlag || extStop i then some ⟨buf, count, none, true, status⟩
      else
        match item with
        | StreamItem.pkt p =>
            streamLoop nch spp live extStop rest (i + 1)
              (count + p.numPackets * spp) (buf ++ [p]) false status
        | StreamItem.nodata =>
            streamLoop nch spp live extStop rest (i + 1) count buf false
              "Error: no data"
        | StreamItem.devErr e =>
            some ⟨buf, count, some e, true, status⟩
    else
      some ⟨buf, count, none, stopFlag, status⟩

/-- How one pass of the outer while body of _acquire_loop ended: break (line 205),
continue (line 212), or falling through to the bottom of the body. -/
inductive CycleOutcome where
  | loopExit
  | continueNext
  | normal
deriving DecidableEq

/-- One pass of the outer while body: the state afterwards, how the pass ended, the
arguments of the dev.streamConfig call when one was made, and the exception captured by
the inner loop if any. -/
structure CycleResult where
  state : SRState
  outcome : CycleOutcome
  configCall : Option (List ℕ × ℕ)
  error : Option String
deriving DecidableEq

/-- One pass of the outer while body of _acquire_loop (lines 192-245), entered after
data_request.wait() returned.  Sets status to Waiting, clears data_ready and the buffer,
snapshots channels / rate / nchannels into locals (lines 200-202); an empty snapshot
sets data_stop and breaks; dev.streamConfig uses the snapshot values and a raised
exception there sets the status and continues; otherwise the inner loop runs, then
dev.streamStop(), data_request is cleared only when no error was captured, and
data_ready is set only when data_stop is not set. -/
def runCycle (spp : ℕ) (configErr : Option String) (live : ℕ → ℚ × ℚ)
    (extStop : ℕ → Bool) (items : List StreamItem) (s : SRState) :
    Option CycleResult :=
  let s0 := { s with status := "Waiting", data_ready := false, buffer := [] }
  let channels := s0.channels
  let rate := s0.rate
  let nch := channels.length
  if nch = 0 then
    some ⟨{ s0 with data_stop := true }, CycleOutcome.loopExit, none, none⟩
  else
    match configErr with
    | some e =>
        some ⟨{ s0 with status := "Error: " ++ e }, CycleOutcome.continueNext,
          some (channels, rate), none⟩
    | none =>
      let s1 := { s0 with status := "Streaming" }
      match streamLoop nch spp live extStop items 0 0 [] s1.data_stop s1.status with
      | none => none
      | some lr =>
        let s2 := { s1 with buffer := lr.buf, status := lr.status,
                            data_stop := lr.stopFlag }
        let s3 := if lr.error.isNone then { s2 with data_request := false } else s2
        let s4 := if s3.data_stop then s3 else { s3 with data_ready := true }
        some ⟨s4, CycleOutcome.normal, some (channels, rate), lr.error⟩

/-- The epilogue of _acquire_loop (lines 246-249), run when the thread leaves the outer
while loop: final status and thread death. -/
def threadExit (error : Option String) (s : SRState) : SRState :=
  { s with thread_alive := false,
           status := match error with
                     | none => "Stopped."
                     | some e => "Aborted: " ++ e }

/-- What the acquisition thread does after one pass of the while body: on a break, or
when the while condition now fails because data_stop is set, it runs the epilogue and
dies; otherwise it goes round the loop again (waiting on data_request). -/
def afterCycle (cr : CycleResult) : SRState :=
  if cr.outcome = CycleOutcome.loopExit ∨ cr.state.data_stop then
    threadExit cr.error cr.state
  else cr.state

/-! ### Python runtime primitives used by DataHandler

The string and number operations below model the CPython builtins the source calls
(str.split, str.replace, str.rstrip applied to its constant format strings, float(),
int(), and the fixed-point / scientific float formatting).  They are external runtime
capabilities of the program, embedded here as concrete executable functions.
-/

/-- The whitespace characters appearing in this data format. -/
def isWS (c : Char) : Bool := c == ' ' || c == '\t' || c == '\n' || c == '\r'

/-- Trim whitespace from both ends of a character list (str.strip, and the stripping
float() and int() apply to their argument). -/
def charTrim (l : List Char) : List Char :=
  ((l.dropWhile isWS).reverse.dropWhile isWS).reverse

/-- Splitting a character list at every separator character, keeping empty pieces
(Python str.split(sep)). -/
def splitCharsAux (p : Char → Bool) : List Char → List Char → List (List Char)
  | [], acc => [acc.reverse]
  | c :: rest, acc =>
    if p c then acc.reverse :: splitCharsAux p rest []
    else splitCharsAux p rest (c :: acc)

/-- See splitCharsAux. -/
def splitChars (p : Char → Bool) (l : List Char) : List (List Char) :=
  splitCharsAux p l []

/-- Python str.split() with no argument: split on runs of whitespace, dropping
empty pieces. -/
def pySplitWS (s : String) : List String :=
  ((splitChars isWS s.toList).filter fun t => !t.isEmpty).map String.mk

/-- Python str.join over a separator (the effect of the intercalated format templates
built in data_to_lines). -/
def pyJoin (sep : String) : List String → String
  | [] => ""
  | [x] => x
  | x :: y :: rest => x ++ sep ++ pyJoin sep (y :: rest)

/-- Python str.rjust / format spec >w: left-pad with spaces to the given width. -/
def pyRJust (w : ℕ) (s : String) : String :=
  String.mk (List.replicate (w - s.length) ' ') ++ s

/-- Value of a digit string, most significant first. -/
def digitsToNat (ds : List Char) : ℕ :=
  ds.foldl (fun n c => 10 * n + (c.toNat - '0'.toNat)) 0

/-- Python int(str): strip whitespace, optional sign, a nonempty digit run; anything
else raises ValueError. -/
def pyInt (s : String) : Except String ℤ :=
  let cs := charTrim s.toList
  let sd : ℤ × List Char :=
    match cs with
    | '+' :: rest => (1, rest)
    | '-' :: rest => (-1, rest)
    | _ => (1, cs)
  if !sd.2.isEmpty && sd.2.all Char.isDigit then
    Except.ok (sd.1 * (digitsToNat sd.2 : ℤ))
  else
    Except.error ("invalid literal for int() with base 10: " ++ s)

/-- Integer powers of ten over ℚ. -/
def pow10 (z : ℤ) : ℚ :=
  match z with
  | Int.ofNat n => (10 : ℚ) ^ n
  | Int.negSucc n => 1 / (10 : ℚ) ^ (n + 1)

/-- The mantissa part of a Python float literal: digits with an optional fractional
part, or a leading dot with digits.  Returns the value and the unconsumed characters. -/
def parseMantissa (cs : List Char) : Option (ℚ × List Char) :=
  let ip := cs.span Char.isDigit
  match ip.2 with
  | '.' :: r2 =>
      let fp := r2.span Char.isDigit
      if ip.1.isEmpty && fp.1.isEmpty then none
      else
        some ((digitsToNat ip.1 : ℚ)
          + (digitsToNat fp.1 : ℚ) / ((10 : ℚ) ^ fp.1.length), fp.2)
  | _ => if ip.1.isEmpty then none else some ((digitsToNat ip.1 : ℚ), ip.2)

/-- Python float(str) on finite decimal literals: strip whitespace, optional sign,
mantissa, optional exponent.  Any other character (a trailing comma, say) raises
ValueError.  The value is exact here. -/
def pyFloat (s : String) : Except String ℚ :=
  let err : Except String ℚ :=
    Except.error ("could not convert string to float: " ++ s)
  let cs := charTrim s.toList
  let sd : ℚ × List Char :=
    match cs with
    | '+' :: rest => (1, rest)
    | '-' :: rest => (-1, rest)
    | _ => (1, cs)
  match parseMantissa sd.2 with
  | none => err
  | some mr =>
    match mr.2 with
    | [] => Except.ok (sd.1 * mr.1)
    | c :: r1 =>
      if c = 'e' ∨ c = 'E' then
        let ed : ℤ × List Char :=
          match r1 with
          | '+' :: t => (1, t)
          | '-' :: t => (-1, t)
          | _ => (1, r1)
        if !ed.2.isEmpty && ed.2.all Char.isDigit then
          Except.ok (sd.1 * mr.1 * pow10 (ed.1 * (digitsToNat ed.2 : ℤ)))
        else err
      else err

/-- Number of decimal digits of a natural number. -/
def decDigits (n : ℕ) : ℕ := (Nat.toDigits 10 n).length

/-- Floor of a nonnegative rational, as a natural number. -/
def ratFloorPos (q : ℚ) : ℕ := q.num.toNat / q.den

/-- The decimal exponent of a positive rational: the e with 10 ^ e ≤ q < 10 ^ (e + 1). -/
def decExp (q : ℚ) : ℤ :=
  if 1 ≤ q then (decDigits (ratFloorPos q) : ℤ) - 1
  else
    -(decDigits ((q.den + q.num.toNat - 1) / q.num.toNat - 1) : ℤ)

/-- Round-to-nearest (half away from zero) of a nonnegative rational, as a natural. -/
def ratRoundPos (q : ℚ) : ℕ := (2 * q.num.toNat + q.den) / (2 * q.den)

/-- Python format spec .5e applied to an exact value: sign, six significant digits with
one before the point, a two-digit signed decimal exponent.  Rounding is to nearest (the
values in this development are never at a tie, where CPython would round half to
even). -/
def pyFormatE5 (q : ℚ) : String :=
  if q = 0 then "0.00000e+00"
  else
    let sgn : List Char := if q < 0 then ['-'] else []
    let a : ℚ := if q < 0 then -q else q
    let e0 := decExp a
    let n0 := ratRoundPos (a * pow10 (5 - e0))
    let ne : ℕ × ℤ := if n0 = 1000000 then (100000, e0 + 1) else (n0, e0)
    let ds := Nat.toDigits 10 ne.1
    let mant := ds.take 1 ++ '.' :: ds.drop 1
    let esgn : Char := if ne.2 < 0 then '-' else '+'
    let eabs := ne.2.natAbs
    let eds := Nat.toDigits 10 eabs
    let eds2 := if eabs < 10 then '0' :: eds else eds
    String.mk (sgn ++ mant ++ 'e' :: esgn :: eds2)

/-- Python format spec f applied to the integer sample rate: six zero decimals. -/
def pyFormatF (n : ℕ) : String := toString n ++ ".000000"

/-- Python zip(*vals): rows of the transpose, truncated to the shortest input. -/
def pyZip (vals : List (List ℚ)) : List (List ℚ) :=
  match (vals.map List.length).min? with
  | none => []
  | some m => (List.range m).map fun i => vals.map fun v => v.getD i 0

namespace DataHandler

/-- DataHandler.data_to_lines (lines 257-268): the serialized form of a fetched data
dict, line by line, each line ending in a newline: rate (format f), dropped (format d),
points (format d), a header of right-justified channel names joined by comma-blanks
(the constant format template is rstripped of its trailing comma and blanks before
formatting), then one row per zipped sample tuple in scientific notation. -/
def data_to_lines (w : Window) : List String :=
  let keys := w.channels.map Prod.fst
  let vals := w.channels.map Prod.snd
  let header := pyJoin ",  " (keys.map (pyRJust 12)) ++ "\n"
  let rows := (pyZip vals).map fun z =>
    pyJoin ",  " (z.map fun v => pyRJust 12 (pyFormatE5 v)) ++ "\n"
  ("rate:      " ++ pyFormatF w.rate ++ "\n") ::
  ("dropped:   " ++ toString w.dropped ++ "\n") ::
  ("points:    " ++ toString w.n ++ "\n") ::
  header :: rows

/-- The scalar fields recovered by DataHandler.load_one; absent when the file never
supplied the key. -/
structure LoadedHeader where
  rate : Option ℚ
  dropped : Option ℤ
  npoints : Option ℤ
deriving DecidableEq

/-- The first while loop of load_one (lines 304-314): read lines, strip blanks, split
on the colon; a line without a colon ends the loop and is handed on as the channel
header line.  Recognized keys parse their value with float() or int(); a parse failure
raises.  End of file reads as the empty line, which has no colon. -/
def loadHeaderLoop : List String → LoadedHeader →
    Except String (LoadedHeader × String × List String)
  | [], acc => Except.ok (acc, "", [])
  | l :: rest, acc =>
    if !(l.toList.contains ':') then
      Except.ok (acc, l, rest)
    else
      let tok := (splitChars (fun c => c == ':')
        (l.toList.filter fun c => c != ' ')).map String.mk
      let t0 := tok.headD ""
      let t1 := tok.getD 1 ""
      if t0 = "rate" then
        match pyFloat t1 with
        | Except.error e => Except.error e
        | Except.ok v => loadHeaderLoop rest { acc with rate := some v }
      else if t0 = "dropped" then
        match pyInt t1 with
        | Except.error e => Except.error e
        | Except.ok v => loadHeaderLoop rest { acc with dropped := some v }
      else if t0 = "points" then
        match pyInt t1 with
        | Except.error e => Except.error e
        | Except.ok v => loadHeaderLoop rest { acc with npoints := some v }
      else
        loadHeaderLoop rest acc

/-- Appending one parsed value to the entry of one channel name (the dict append of
line 324; the keys of cols are distinct, as Python dict keys are). -/
def appendAt (cols : ChannelData) (c : String) (v : ℚ) : ChannelData :=
  cols.map fun e => if e.1 = c then (e.1, e.2 ++ [v]) else e

/-- The inner for loop of the row reader (lines 323-324): for the i-th channel name,
take the i-th whitespace token of the row (IndexError when the row is short) and parse
it with float(). -/
def appendRowAux (pts : List String) : List String → ℕ → ChannelData →
    Except String ChannelData
  | [], _, cols => Except.ok cols
  | c :: cs, i, cols =>
    match pts[i]? with
    | none => Except.error "IndexError: list index out of range"
    | some t =>
      match pyFloat t with
      | Except.error e => Except.error e
      | Except.ok v => appendRowAux pts cs (i + 1) (appendAt cols c v)

/-- The second while loop of load_one (lines 318-324): read rows until end of file (or
an empty read), split each row on whitespace and append one value per channel name. -/
def loadRowsLoop (chs : List String) : List String → ChannelData →
    Except String ChannelData
  | [], cols => Except.ok cols
  | l :: rest, cols =>
    if l = "" then Except.ok cols
    else
      match appendRowAux (pySplitWS l) chs 0 cols with
      | Except.error e => Except.error e
      | Except.ok cols2 => loadRowsLoop chs rest cols2

/-- DataHandler.load_one (lines 300-325) over the serialized lines of a file: run the
header loop, split the first colon-free line into channel names (str.split() keeps a
comma glued to a name), give every distinct name an empty entry, then run the row
loop.  Any ValueError or IndexError inside propagates to the caller. -/
def load_one (lines : List String) : Except String (LoadedHeader × ChannelData) :=
  match loadHeaderLoop lines ⟨none, none, none⟩ with
  | Except.error e => Except.error e
  | Except.ok hd =>
    let chs := pySplitWS hd.2.1
    let cols0 := chs.foldl
      (fun m c => if (m.map Prod.fst).contains c then m else m ++ [(c, [])]) []
    match loadRowsLoop chs hd.2.2 cols0 with
    | Except.error e => Except.error e
    | Except.ok cols => Except.ok (hd.1, cols)

end DataHandler

/-! ### Derived accessors, a spec-side reference definition, and concrete scenario data -/

/-- The sample sequence a data dict stores for channel k (empty when the key is
absent): the content of data[k]. -/
def getChan : ChannelData → String → List ℚ
  | [], _ => []
  | e :: rest, k => if e.1 = k then e.2 else getChan rest k

/-- All samples one decoded packet contributes to channel k, in decoded order. -/
def contrib (lst : ChannelData) (k : String) : List ℚ :=
  (lst.map fun kv => if kv.1 = k then kv.2 else []).flatten

/-- From the spec (section 4.1): the streaming phase consumes packets until the running
total of aggregate samples first reaches or exceeds the integration target.  Returns
how many packets that takes together with the total then reached, or none when the
packet supply ends first.  This is the reference the loop of the source is compared
against. -/
def firstHitFrom (spp : ℕ) (target : ℚ) : List RawPacket → ℕ → Option (ℕ × ℕ)
  | [], count => if (count : ℚ) < target then none else some (0, count)
  | p :: rest, count =>
    if (count : ℚ) < target then
      (firstHitFrom spp target rest (count + p.numPackets * spp)).map
        fun pr => (pr.1 + 1, pr.2)
    else some (0, count)

/-- Modelled from the spec: the Device Port decode capability (processStreamData of the
u6 driver, external to this repository) turns a packet into a per-channel sample
sequence; this instance distributes the numPackets × spp samples of a packet
round-robin over the given channel names, as the interleaved hardware stream does. -/
def rrDecode (names : List String) (spp : ℕ) (p : RawPacket) : ChannelData :=
  let total := p.numPackets * spp
  let n := names.length
  (List.range n).map fun j =>
    (names.getD j "", List.replicate (total / n + if j < total % n then 1 else 0) (0 : ℚ))

/-- A one-channel decode capability used by the concrete counterexample states. -/
def dec0 : RawPacket → ChannelData := fun p => [("AIN0", p.result)]

/-- No actor ever sets data_stop from outside during the cycle. -/
def noExtStop : ℕ → Bool := fun _ => false

/-- One packet delivered before the device fails. -/
def c1Packet : RawPacket := ⟨1, 0, [0]⟩

/-- A controller about to run a cycle: one channel, 100 samples/s, 1 s integration. -/
def c1State : SRState := ⟨[], true, false, false, [0], 100, 1, "", true, true⟩

/-- The device yields one packet, then its next-packet call raises. -/
def c1Items : List StreamItem :=
  [StreamItem.pkt c1Packet, StreamItem.devErr "LabJackException"]

/-- The sampling settings stay constant during the c1 run. -/
def c1Live : ℕ → ℚ × ℚ := fun _ => (1, 100)

/-- The controller state after the aborted c1 cycle (computed below): the partial
buffer is still there but data_ready is down and the thread is gone. -/
def c2State : SRState :=
  ⟨[c1Packet], true, false, true, [0], 100, 1, "Aborted: LabJackException", true, false⟩

/-- A controller mid-acquisition whose configuration is mutated in c3LiveMut. -/
def c3State : SRState := ⟨[], true, false, false, [0], 100, 1, "", true, true⟩

/-- 25 aggregate samples per packet (numPackets = 1). -/
def c3Packet : RawPacket := ⟨1, 0, []⟩

/-- Four identical packets on offer. -/
def c3Items : List StreamItem :=
  [StreamItem.pkt c3Packet, StreamItem.pkt c3Packet,
   StreamItem.pkt c3Packet, StreamItem.pkt c3Packet]

/-- Run A: nobody touches the configuration fields during the run. -/
def c3LiveConst : ℕ → ℚ × ℚ := fun _ => (1, 100)

/-- Run B: identical, except that another actor assigns self._rate := 50 between the
second and third check of the while condition of the in-flight run. -/
def c3LiveMut : ℕ → ℚ × ℚ := fun i => if i < 2 then (1, 100) else (1, 50)

/-- A state whose buffer holds one undrained packet and whose data_ready is set. -/
def c4State : SRState :=
  ⟨[⟨1, 0, [2]⟩], true, true, false, [0], 5000, 2, "Waiting", true, true⟩

/-- Two channels at 25001 samples/s each: 50002 > 50000 aggregate. -/
def c5BadState : SRState :=
  ⟨[], false, false, false, [0, 1], 25001, 2, "", true, false⟩

/-- Two channels at 25000 samples/s each: exactly the permitted aggregate. -/
def c5GoodState : SRState :=
  ⟨[], false, false, false, [0, 1], 25000, 2, "", true, false⟩

/-- data_ready set but the buffer empty: what fetch_data sees when polled twice before
the thread starts its next cycle. -/
def c6State : SRState := ⟨[], true, true, false, [0], 5000, 2, "Waiting", true, true⟩

/-- The channel names of the section-8 scenario of the spec. -/
def c7Names : List String := ["AIN0", "AIN2"]

/-- 50 hardware packets of 25 samples: 1250 aggregate samples. -/
def c7Packet : RawPacket := ⟨50, 0, []⟩

/-- Sixteen such packets: exactly the 20000-sample integration target. -/
def c7Packets : List RawPacket := List.replicate 16 c7Packet

/-- The same packets as stream items. -/
def c7Items : List StreamItem := c7Packets.map StreamItem.pkt

/-- Constant settings: 2 s integration at 5000 samples/s. -/
def c7Live : ℕ → ℚ × ℚ := fun _ => (2, 5000)

/-- The scenario controller before the cycle: channels [0, 2], rate 5000, 2 s. -/
def c7State : SRState := ⟨[], true, false, false, [0, 2], 5000, 2, "", true, true⟩

/-- The scenario controller after the cycle: the sixteen packets buffered, data_ready
raised, data_request cleared. -/
def c7PostState : SRState :=
  ⟨c7Packets, false, true, false, [0, 2], 5000, 2, "Streaming", true, true⟩

/-- A controller with a live thread, for the double-start claim. -/
def c8State : SRState := ⟨[], false, false, false, [0], 5000, 2, "", true, true⟩

/-- A thread observing an empty channel list at the top of its cycle. -/
def c10State : SRState := ⟨[], true, false, false, [], 5000, 2, "", true, true⟩

/-- A stopped controller, reconfigured with a channel, before a fresh start call. -/
def c10FreshState : SRState :=
  ⟨[], false, false, true, [0], 5000, 2, "Stopped.", true, false⟩

/-- A two-channel window about to be serialized. -/
def c9Window : Window := ⟨5000, 2, [("AIN0", [1, 2]), ("AIN2", [3, 4])], 0⟩

/-- A one-channel window, for the part of the round trip that does work. -/
def c9Window1 : Window := ⟨5000, 2, [("AIN0", [1, 2])], 3⟩

/-- The full cycle record of the aborted c1 run (checked below against runCycle): the
partial packet still buffered, data_stop raised by the error handler, data_request
never cleared, the exception recorded. -/
def c1CR : CycleResult :=
  ⟨⟨[c1Packet], true, false, true, [0], 100, 1, "Streaming", true, true⟩,
    CycleOutcome.normal, some ([0], 100), some "LabJackException"⟩

/-- The full cycle record of the undisturbed c3 run A (checked below against
runCycle). -/
def c3CR : CycleResult :=
  ⟨⟨[c3Packet, c3Packet, c3Packet, c3Packet], false, true, false, [0], 100, 1,
    "Streaming", true, true⟩, CycleOutcome.normal, some ([0], 100), none⟩

/-! ### Helper lemmas about the drain -/

theorem getChan_eq_nil (data : ChannelData) (k : String)
    (h : (data.map Prod.fst).contains k = false) : getChan data k = [] := by
  induction data with
  | nil => rfl
  | cons e rest ih =>
    simp only [List.map_cons, List.contains_cons, Bool.or_eq_false_iff,
      beq_eq_false_iff_ne] at h
    simp only [getChan, if_neg (fun hk : e.1 = k => h.1 hk.symm)]
    exact ih h.2

theorem getChan_update_ne (data : ChannelData) (kv : String × List ℚ) (k : String)
    (h : kv.1 ≠ k) :
    getChan (data.map fun e => if e.1 = kv.1 then (e.1, e.2 ++ kv.2) else e) k
      = getChan data k := by
  induction data with
  | nil => rfl
  | cons e rest ih =>
    by_cases he : e.1 = kv.1
    · have hek : ¬e.1 = k := fun hk => h (he ▸ hk)
      simp only [List.map_cons, if_pos he, getChan, if_neg hek]
      exact ih
    · simp only [List.map_cons, if_neg he, getChan]
      by_cases hek : e.1 = k
      · rw [if_pos hek, if_pos hek]
      · rw [if_neg hek, if_neg hek]
        exact ih

theorem getChan_update_eq (data : ChannelData) (kv : String × List ℚ)
    (h : (data.map Prod.fst).contains kv.1 = true) :
    getChan (data.map fun e => if e.1 = kv.1 then (e.1, e.2 ++ kv.2) else e) kv.1
      = getChan data kv.1 ++ kv.2 := by
  induction data with
  | nil => simp at h
  | cons e rest ih =>
    by_cases he : e.1 = kv.1
    · simp [List.map_cons, if_pos he, getChan, he]
    · have h2 : (rest.map Prod.fst).contains kv.1 = true := by
        simp only [List.map_cons, List.contains_cons, Bool.or_eq_true,
          beq_iff_eq] at h
        rcases h with h | h
        · exact absurd h.symm he
        · exact h
      simp only [List.map_cons, if_neg he, getChan, if_neg he]
      exact ih h2

theorem getChan_append_single (data : ChannelData) (kv : String × List ℚ) (k : String)
    (h : (data.map Prod.fst).contains kv.1 = false) :
    getChan (data ++ [kv]) k = getChan data k ++ (if kv.1 = k then kv.2 else []) := by
  induction data with
  | nil =>
    simp [getChan]
  | cons e rest ih =>
    simp only [List.map_cons, List.contains_cons, Bool.or_eq_false_iff,
      beq_eq_false_iff_ne] at h
    simp only [List.cons_append, getChan]
    by_cases hek : e.1 = k
    · rw [if_pos hek, if_pos hek]
      have : ¬kv.1 = k := fun hkk => h.1 (hkk.trans hek.symm)
      rw [if_neg this, List.append_nil]
    · rw [if_neg hek, if_neg hek]
      exact ih h.2

theorem mergeOne_getChan (data : ChannelData) (kv : String × List ℚ) (k : String) :
    getChan (mergeOne data kv) k
      = getChan data k ++ (if kv.1 = k then kv.2 else []) := by
  unfold mergeOne
  by_cases hc : (data.map Prod.fst).contains kv.1 = true
  · rw [if_pos hc]
    by_cases hk : kv.1 = k
    · subst hk
      rw [if_pos rfl, getChan_update_eq data kv hc]
    · rw [if_neg hk, getChan_update_ne data kv k hk, List.append_nil]
  · have hc2 : (data.map Prod.fst).contains kv.1 = false :=
      Bool.eq_false_iff.mpr hc
    rw [if_neg hc, getChan_append_single data kv k hc2]

theorem foldl_mergeOne_getChan (lst : ChannelData) (data : ChannelData) (k : String) :
    getChan (lst.foldl mergeOne data) k = getChan data k ++ contrib lst k := by
  induction lst generalizing data with
  | nil => simp [contrib]
  | cons kv rest ih =>
    simp only [List.foldl_cons, contrib, List.map_cons, List.flatten_cons]
    rw [ih (mergeOne data kv), mergeOne_getChan, List.append_assoc]
    rfl

theorem drain_spec (dec : RawPacket → ChannelData) (buf : List RawPacket) :
    (∀ k, getChan (drain dec buf).1 k
      = (buf.map fun p => contrib (dec p) k).flatten) ∧
    (drain dec buf).2 = (buf.map RawPacket.missed).sum := by
  suffices haux : ∀ (d0 : ChannelData) (n0 : ℕ),
      (∀ k, getChan
          ((buf.foldl (fun acc p => (mergePacket dec acc.1 p, acc.2 + p.missed))
            (d0, n0)).1) k
        = getChan d0 k ++ (buf.map fun p => contrib (dec p) k).flatten) ∧
      (buf.foldl (fun acc p => (mergePacket dec acc.1 p, acc.2 + p.missed))
          (d0, n0)).2
        = n0 + (buf.map RawPacket.missed).sum by
    have h := haux [] 0
    exact ⟨fun k => by simpa [getChan] using h.1 k, by simpa using h.2⟩
  induction buf with
  | nil =>
    intro d0 n0
    simp
  | cons p rest ih =>
    intro d0 n0
    simp only [List.foldl_cons, List.map_cons, List.flatten_cons, List.sum_cons]
    constructor
    · intro k
      rw [(ih (mergePacket dec d0 p) (n0 + p.missed)).1 k]
      rw [show mergePacket dec d0 p = (dec p).foldl mergeOne d0 from rfl]
      rw [foldl_mergeOne_getChan, List.append_assoc]
    · rw [(ih (mergePacket dec d0 p) (n0 + p.missed)).2]
      omega

/-! ### Helper lemmas about the streaming loop and the controller -/

theorem streamLoop_error_stop (nch spp : ℕ) (live : ℕ → ℚ × ℚ) (extStop : ℕ → Bool) :
    ∀ (items : List StreamItem) (i count : ℕ) (buf : List RawPacket) (stopFlag : Bool)
      (status : String) (lr : LoopResult) (e : String),
      streamLoop nch spp live extStop items i count buf stopFlag status = some lr →
      lr.error = some e → lr.stopFlag = true := by
  intro items
  induction items with
  | nil =>
    intro i count buf stopFlag status lr e h he
    simp only [streamLoop] at h
    split at h
    · split at h
      · cases h
        rfl
      · cases h
    · cases h
      simp at he
  | cons item rest ih =>
    intro i count buf stopFlag status lr e h he
    simp only [streamLoop] at h
    split at h
    · split at h
      · cases h
        rfl
      · cases item with
        | pkt p => exact ih _ _ _ _ _ lr e h he
        | nodata => exact ih _ _ _ _ _ lr e h he
        | devErr e2 =>
          cases h
          rfl
    · cases h
      simp at he

theorem streamLoop_const (nch spp : ℕ) (t r : ℚ) (status : String) :
    ∀ (packets : List RawPacket) (i count : ℕ) (buf : List RawPacket),
      streamLoop nch spp (fun _ => (t, r)) noExtStop (packets.map StreamItem.pkt)
          i count buf false status
        = match firstHitFrom spp (t * r * (nch : ℚ)) packets count with
          | none => none
          | some pr => some ⟨buf ++ packets.take pr.1, pr.2, none, false, status⟩ := by
  intro packets
  induction packets with
  | nil =>
    intro i count buf
    simp only [List.map_nil, streamLoop, firstHitFrom, noExtStop, Bool.or_false]
    by_cases hc : (count : ℚ) < t * r * (nch : ℚ)
    · rw [if_pos hc, if_pos hc]
      simp
    · rw [if_neg hc, if_neg hc]
      simp
  | cons p rest ih =>
    intro i count buf
    simp only [List.map_cons, streamLoop, firstHitFrom, noExtStop, Bool.or_false]
    by_cases hc : (count : ℚ) < t * r * (nch : ℚ)
    · rw [if_pos hc, if_pos hc]
      rw [ih (i + 1) (count + p.numPackets * spp) (buf ++ [p])]
      cases hfh : firstHitFrom spp (t * r * (nch : ℚ)) rest (count + p.numPackets * spp) with
      | none => simp
      | some pr =>
        simp [List.take_succ_cons, List.append_assoc, List.singleton_append]
    · rw [if_neg hc, if_neg hc]
      simp

theorem start_spawned_alive (c : Bool) (s : SRState) :
    (start_acquisition c s).spawned = true →
    (start_acquisition c s).state.thread_alive = true := by
  intro hsp
  simp only [start_acquisition] at hsp ⊢
  split_ifs at hsp ⊢ <;> simp_all

theorem start_alive_not_spawn (c : Bool) (s : SRState) (h : s.thread_alive = true) :
    (start_acquisition c s).spawned = false := by
  simp only [start_acquisition]
  split_ifs <;> simp_all

theorem pyMax_of_ne_nil (l : List ℕ) (h : l ≠ []) : ∃ m, pyMax l = Except.ok m := by
  cases l with
  | nil => exact absurd rfl h
  | cons x xs => exact ⟨xs.foldl Nat.max x, rfl⟩

/-! ### The claims -/

/-- C5: a configuration with an empty channel set, or with
rate × channelCount exceeding MAXSAMPLERATE, is rejected synchronously by
start_acquisition: it returns false, sets a status string naming the violated
constraint, and spawns no thread (the guard never raises: the embedding is a total
function); a configuration satisfying the constraint, on a reachable device, is
accepted with return value true.  The rational guard of the source,
rate > MAXSAMPLERATE / channelCount, is equivalent to the aggregate formulation of the
spec. -/
theorem C5_validation (connectOk : Bool) (s : SRState)
    (hdev : s.device_connected = true ∨ connectOk = true) :
    (s.channels.length = 0 →
      start_acquisition connectOk s =
        ⟨false,
          { s with
              device_connected := true
              status := "No channels selected." },
          false⟩) ∧
    (s.channels.length ≠ 0 →
      (((s.rate : ℚ) > (MAXSAMPLERATE : ℚ) / (s.channels.length : ℚ)) ↔
        MAXSAMPLERATE < s.rate * s.channels.length)) ∧
    (s.channels.length ≠ 0 → MAXSAMPLERATE < s.rate * s.channels.length →
      start_acquisition connectOk s =
        ⟨false,
          { s with
              device_connected := true
              status := "Sample rate too high for "
                ++ toString s.channels.length ++ " channels." },
          false⟩) ∧
    (s.channels.length ≠ 0 → s.rate * s.channels.length ≤ MAXSAMPLERATE →
      (start_acquisition connectOk s).ret = true) := by
  have hb : (!s.device_connected && !connectOk) = false := by
    rcases hdev with h | h <;> simp [h]
  have hiff : s.channels.length ≠ 0 →
      (((s.rate : ℚ) > (MAXSAMPLERATE : ℚ) / (s.channels.length : ℚ)) ↔
        MAXSAMPLERATE < s.rate * s.channels.length) := by
    intro hne
    have hn : (0 : ℚ) < (s.channels.length : ℚ) := by
      exact_mod_cast Nat.pos_of_ne_zero hne
    rw [gt_iff_lt, div_lt_iff hn]
    exact_mod_cast Iff.rfl
  refine ⟨?_, hiff, ?_, ?_⟩
  · intro h0
    simp [start_acquisition, hb, h0]
  · intro hne hgt
    have hq := (hiff hne).mpr hgt
    simp [start_acquisition, hb, hne, hq]
  · intro hne hle
    have hq : ¬((s.rate : ℚ) > (MAXSAMPLERATE : ℚ) / (s.channels.length : ℚ)) :=
      fun hc => absurd ((hiff hne).mp hc) (Nat.not_lt.mpr hle)
    simp only [start_acquisition, hb, Bool.false_eq_true, if_false]
    rw [if_neg (by simpa using hne), if_neg (by simpa using hq)]
    cases h : s.thread_alive <;> simp

/-- C5 witness: two channels at 25001 samples/s each are rejected, two channels at
25000 samples/s each are accepted. -/
theorem C5_witness :
    (start_acquisition true c5BadState).ret = false ∧
    (start_acquisition true c5GoodState).ret = true := by
  constructor
  · rw [(C5_validation true c5BadState (Or.inr rfl)).2.2.1 (by decide) (by decide)]
  · exact (C5_validation true c5GoodState (Or.inr rfl)).2.2.2 (by decide) (by decide)

/-- C8: at most one collection thread is alive per controller: two successive
start_acquisition calls never both spawn; a call made while a thread is alive spawns
nothing — when its validation passes it only raises data_request (returning true); and
the same holds right after a timed-out stop (the thread still alive then). -/
theorem C8_single_thread (c1 c2 : Bool) (s : SRState) :
    (¬((start_acquisition c1 s).spawned = true ∧
       (start_acquisition c2 (start_acquisition c1 s).state).spawned = true)) ∧
    (s.thread_alive = true → (start_acquisition c1 s).spawned = false) ∧
    (s.thread_alive = true → s.device_connected = true → s.channels.length ≠ 0 →
      ¬((s.rate : ℚ) > (MAXSAMPLERATE : ℚ) / (s.channels.length : ℚ)) →
      start_acquisition c1 s =
        ⟨true,
          { s with
              device_connected := true
              data_request := true },
          false⟩) ∧
    (s.thread_alive = true →
      (start_acquisition c1 (stop_acquisition false s)).spawned = false) := by
  refine ⟨?_, fun h => start_alive_not_spawn c1 s h, ?_, ?_⟩
  · rintro ⟨h1, h2⟩
    have ha := start_spawned_alive c1 s h1
    have := start_alive_not_spawn c2 _ ha
    simp_all
  · intro ha hdev hne hrate
    have hb : (!s.device_connected && !c1) = false := by simp [hdev]
    simp [start_acquisition, hb, hne, hrate, ha]
  · intro ha
    apply start_alive_not_spawn
    simp [stop_acquisition, ha]

/-- C8 witness: with a live thread, the first and the second call both spawn
nothing, and a passing call only raises data_request. -/
theorem C8_witness :
    (start_acquisition true c8State).spawned = false ∧
    start_acquisition true c8State =
      ⟨true,
        { c8State with
            device_connected := true
            data_request := true },
        false⟩ := by
  refine ⟨(C8_single_thread true true c8State).2.1 rfl, ?_⟩
  exact (C8_single_thread true true c8State).2.2.1 rfl rfl (by decide) (by decide)

/-- C10 (implicit): a collection thread that finds the channel list empty at the top
of a cycle sets data_stop itself and breaks out of its loop; the epilogue then marks
the run Stopped and the thread dies, never having configured the device (no
streamConfig call is recorded) or buffered anything; acquisition stays down until a
start_acquisition call on the dead-thread state spawns a fresh thread, which also
clears data_stop. -/
theorem C10_empty_channels_stop (spp : ℕ) (cfgErr : Option String)
    (live : ℕ → ℚ × ℚ) (extStop : ℕ → Bool) (items : List StreamItem) (s : SRState)
    (h : s.channels = []) :
    runCycle spp cfgErr live extStop items s =
      some ⟨{ s with
                status := "Waiting"
                data_ready := false
                buffer := []
                data_stop := true },
        CycleOutcome.loopExit, none, none⟩ ∧
    afterCycle ⟨{ s with
                    status := "Waiting"
                    data_ready := false
                    buffer := []
                    data_stop := true },
        CycleOutcome.loopExit, none, none⟩ =
      { s with
          status := "Stopped."
          data_ready := false
          buffer := []
          data_stop := true
          thread_alive := false } ∧
    (∀ (c : Bool) (s2 : SRState), s2.thread_alive = false → s2.device_connected = true →
      s2.channels.length ≠ 0 →
      ¬((s2.rate : ℚ) > (MAXSAMPLERATE : ℚ) / (s2.channels.length : ℚ)) →
      (start_acquisition c s2).spawned = true ∧
      (start_acquisition c s2).state.data_stop = false) := by
  refine ⟨?_, ?_, ?_⟩
  · simp [runCycle, h]
  · simp [afterCycle, threadExit]
  · intro c s2 hta hdev hne hrate
    have hb : (!s2.device_connected && !c) = false := by simp [hdev]
    simp [start_acquisition, hb, hne, hrate, hta]

/-- C10 witness: the concrete empty-channel state stops its cycle, and a fresh start
on the stopped controller (after a channel is set) spawns a new thread with data_stop
cleared. -/
theorem C10_witness :
    runCycle 25 none c1Live noExtStop [] c10State =
      some ⟨{ c10State with
                status := "Waiting"
                data_ready := false
                buffer := []
                data_stop := true },
        CycleOutcome.loopExit, none, none⟩ ∧
    (start_acquisition true c10FreshState).spawned = true ∧
    (start_acquisition true c10FreshState).state.data_stop = false := by
  refine ⟨(C10_empty_channels_stop 25 none c1Live noExtStop [] c10State rfl).1, ?_⟩
  exact (C10_empty_channels_stop 25 none c1Live noExtStop [] c10State rfl).2.2
    true c10FreshState rfl rfl (by decide) (by decide)

/-- C6 (code bug): when fetch_data runs a drain on an empty buffer (data_ready set,
no packet buffered), the source does not return an empty-window marker: the line
npoints = max(map(len, data.values())) raises ValueError on the empty dict.  The side
effects already performed (drain, data_request.set()) survive the raise. -/
theorem C6_code_bug_empty_drain_crash :
    (fetch_data dec0 true c6State).1 = Except.error "max() arg is an empty sequence" ∧
    (fetch_data dec0 true c6State).2.buffer = [] ∧
    (fetch_data dec0 true c6State).2.data_request = true := by decide

/-- C9 (code bug): serializing the two-channel window c9Window with data_to_lines and
reading it back with load_one does not round-trip: str.split() leaves the column commas
glued to the tokens, so float() raises ValueError on the very first data value (and the
first channel name would have been loaded as AIN0-comma).  A one-channel window, whose
rows and header carry no separator commas, round-trips exactly: same rate, same dropped
count, same channel samples. -/
theorem C9_code_bug_roundtrip_crash :
    DataHandler.load_one (DataHandler.data_to_lines c9Window) =
      Except.error "could not convert string to float: 1.00000e+00," ∧
    DataHandler.load_one (DataHandler.data_to_lines c9Window1) =
      Except.ok (⟨some 5000, some 3, some 2⟩, [("AIN0", [1, 2])]) := by decide

/-- C1 counterexample: in the concrete aborted run (one packet buffered, then the
next-packet call raises), the run does reach the Aborted status, but data_ready is NOT
raised, even though the partial window is still in the buffer — the claim says the
data-ready signal is still raised so the consumer observes the partial data. -/
theorem C1_counterexample :
    (runCycle 25 none c1Live noExtStop c1Items c1State).map afterCycle = some c2State ∧
    c2State.status = "Aborted: LabJackException" ∧
    c2State.data_ready = false ∧
    c2State.buffer = [c1Packet] := by decide

/-- C1 amended: a device error during streaming sets data_stop inside the except
handler, so the run transitions to Aborted (status string) and the thread exits — but
because data_ready.set() is guarded by data_stop not being set, data-ready stays DOWN:
the partial window remains in the buffer without being signalled, and data_request is
left set. -/
theorem C1_amended_abort (spp : ℕ) (live : ℕ → ℚ × ℚ) (extStop : ℕ → Bool)
    (items : List StreamItem) (s : SRState) (cr : CycleResult) (e : String)
    (hrun : runCycle spp none live extStop items s = some cr)
    (herr : cr.error = some e) :
    cr.state.data_stop = true ∧
    (afterCycle cr).status = "Aborted: " ++ e ∧
    (afterCycle cr).data_ready = false ∧
    (afterCycle cr).thread_alive = false ∧
    (afterCycle cr).buffer = cr.state.buffer := by
  simp only [runCycle] at hrun
  split at hrun
  · cases hrun
    simp at herr
  · cases hsl : streamLoop s.channels.length spp live extStop items 0 0 [] s.data_stop
        "Streaming" with
    | none =>
      rw [hsl] at hrun
      cases hrun
    | some lr =>
      rw [hsl] at hrun
      cases hrun
      have herr2 : lr.error = some e := herr
      have hstop := streamLoop_error_stop s.channels.length spp live extStop items
        0 0 [] s.data_stop "Streaming" lr e hsl herr2
      have hnone : lr.error.isNone = false := by rw [herr2]; rfl
      simp only [hnone, Bool.false_eq_true, if_false, hstop, if_pos,
        afterCycle, threadExit, herr2]
      simp [hstop]

/-- C1 witness: the amended statement applied to the concrete aborted run. -/
theorem C1_witness :
    c1CR.state.data_stop = true ∧
    (afterCycle c1CR).status = "Aborted: " ++ "LabJackException" ∧
    (afterCycle c1CR).data_ready = false ∧
    (afterCycle c1CR).thread_alive = false ∧
    (afterCycle c1CR).buffer = c1CR.state.buffer :=
  C1_amended_abort 25 c1Live noExtStop c1Items c1State c1CR "LabJackException"
    (by decide) (by decide)

/-- C2 counterexample: fetch_data has no timeout parameter at all — its
data_ready.wait() is called with no argument.  From the post-abort state (data_ready
down, thread dead, nobody left to set the flag) the call never returns, for any number
of scheduler steps: it neither observes the timeout the claim speaks of nor produces a
no-data outcome. -/
theorem C2_counterexample :
    fetchNeverReturns dec0 true c2State ∧ c2State.data_ready = false := by
  refine ⟨fun steps => ?_, rfl⟩
  simp [fetch_data_call, eventWaitNoTimeout, c2State]

/-- C2 amended: the wait of fetch_data is untimed.  When data-ready is already set the
call proceeds immediately (whatever the step count); when data-ready is down and no
concurrent actor raises it, the call never returns — there is no no-data outcome. -/
theorem C2_amended_wait (decode : RawPacket → ChannelData) (another : Bool)
    (s : SRState) (steps : ℕ) :
    (s.data_ready = true →
      fetch_data_call decode another s steps = some (fetch_data decode another s)) ∧
    (s.data_ready = false → fetchNeverReturns decode another s) := by
  constructor
  · intro h
    simp [fetch_data_call, eventWaitNoTimeout, h]
  · intro h st
    simp [fetch_data_call, eventWaitNoTimeout, h]

/-- C2 witness: the amended statement applied to a ready state and to the post-abort
state. -/
theorem C2_witness :
    fetch_data_call dec0 true c4State 0 = some (fetch_data dec0 true c4State) ∧
    fetchNeverReturns dec0 true c2State :=
  ⟨(C2_amended_wait dec0 true c4State 0).1 rfl,
   (C2_amended_wait dec0 true c2State 0).2 rfl⟩

/-- C4 counterexample: fetch_data never clears data-ready.  On the concrete state with
data_ready set and one buffered packet, the state after the call still has data_ready
set — the claim says the call clears it; in the source the flag is cleared only by the
collection thread at the top of its next cycle. -/
theorem C4_counterexample :
    (fetch_data dec0 true c4State).2.data_ready = true ∧
    c4State.data_ready = true ∧
    c4State.buffer ≠ [] := by decide

/-- C4 amended: fetch_data leaves data-ready untouched (the thread clears it later),
but the drain part of the claim holds: the entire buffer is consumed, each channel of
the accumulated dict is the in-order concatenation of the per-packet decoded
contributions (FIFO), the dropped count is the sum of the missed counts, and a
successful call returns exactly that dict and count in its Window. -/
theorem C4_amended_drain (decode : RawPacket → ChannelData) (another : Bool)
    (s : SRState) (h : s.data_ready = true) :
    (fetch_data decode another s).2.data_ready = true ∧
    (fetch_data decode another s).2.buffer = [] ∧
    (∀ k, getChan (drain decode s.buffer).1 k
        = (s.buffer.map fun p => contrib (decode p) k).flatten) ∧
    (drain decode s.buffer).2 = (s.buffer.map RawPacket.missed).sum ∧
    (∀ w s2, fetch_data decode another s = (Except.ok w, s2) →
      w.channels = (drain decode s.buffer).1 ∧
      w.dropped = (drain decode s.buffer).2) := by
  refine ⟨?_, ?_, (drain_spec decode s.buffer).1, (drain_spec decode s.buffer).2, ?_⟩
  · rw [← h]
    simp only [fetch_data]
    split
    · split <;> rfl
    · split <;> rfl
  · simp only [fetch_data]
    split
    · split <;> rfl
    · split <;> rfl
  · intro w s2 hf
    simp only [fetch_data] at hf
    split at hf
    · simp [Prod.mk.injEq] at hf
    · rw [Prod.mk.injEq] at hf
      obtain ⟨hw, _⟩ := hf
      cases hw
      exact ⟨rfl, rfl⟩

/-- C4 witness: the amended statement applied to the concrete one-packet state. -/
theorem C4_witness :
    (fetch_data dec0 true c4State).2.data_ready = true ∧
    (fetch_data dec0 true c4State).2.buffer = [] :=
  ⟨(C4_amended_drain dec0 true c4State rfl).1,
   (C4_amended_drain dec0 true c4State rfl).2.1⟩

/-- C3 counterexample: the while condition of the packet loop reads self._t_integrate
and self._rate live on every check, not from the snapshot.  Two runs from the same
state over the same packet stream, identical except that in run B another actor
assigns self._rate := 50 between the second and third check (the live environments
agree on the first two reads), consume different numbers of packets — 4 against 2 —
so a configuration change made while the run is in flight DOES change the run's
integration target.  The device configuration call, in contrast, is the same snapshot
pair in both runs. -/
theorem C3_counterexample :
    (runCycle 25 none c3LiveConst noExtStop c3Items c3State).map
        (fun cr => (cr.state.buffer.length, cr.configCall))
      = some (4, some ([0], 100)) ∧
    (runCycle 25 none c3LiveMut noExtStop c3Items c3State).map
        (fun cr => (cr.state.buffer.length, cr.configCall))
      = some (2, some ([0], 100)) ∧
    c3LiveConst 0 = c3LiveMut 0 ∧ c3LiveConst 1 = c3LiveMut 1 := by decide

/-- C3 amended: the thread snapshots channels and rate at the top of the cycle and the
dev.streamConfig call uses exactly that snapshot (whatever the live environment does);
but the integration-target check of the packet loop evaluates
self._t_integrate * self._rate * nchannels with the LIVE field values at each check, so
mid-run configuration changes do reach the in-flight run (see the counterexample). -/
theorem C3_amended_snapshot_live :
    (∀ (spp : ℕ) (cfgErr : Option String) (live : ℕ → ℚ × ℚ) (extStop : ℕ → Bool)
       (items : List StreamItem) (s : SRState) (cr : CycleResult),
       runCycle spp cfgErr live extStop items s = some cr →
       cr.outcome = CycleOutcome.normal →
       cr.configCall = some (s.channels, s.rate)) ∧
    (∀ (nch spp : ℕ) (live : ℕ → ℚ × ℚ) (extStop : ℕ → Bool)
       (items : List StreamItem) (i count : ℕ) (buf : List RawPacket)
       (stopFlag : Bool) (status : String),
       ¬((count : ℚ) < (live i).1 * (live i).2 * (nch : ℚ)) →
       streamLoop nch spp live extStop items i count buf stopFlag status
         = some ⟨buf, count, none, stopFlag, status⟩) := by
  constructor
  · intro spp cfgErr live extStop items s cr hrun houtcome
    simp only [runCycle] at hrun
    split at hrun
    · cases hrun
      simp at houtcome
    · cases cfgErr with
      | some e =>
        cases hrun
        simp at houtcome
      | none =>
        cases hsl : streamLoop s.channels.length spp live extStop items 0 0 []
            s.data_stop "Streaming" with
        | none =>
          rw [hsl] at hrun
          cases hrun
        | some lr =>
          rw [hsl] at hrun
          cases hrun
          rfl
  · intro nch spp live extStop items i count buf stopFlag status h
    cases items <;> simp [streamLoop, h]

/-- C3 witness: the amended statement applied to outcome data of run A, and to a loop
whose first live check already meets the target. -/
theorem C3_witness :
    c3CR.configCall = some (c3State.channels, c3State.rate) ∧
    streamLoop 1 25 c3LiveConst noExtStop [] 0 100 [] false "Streaming"
      = some ⟨[], 100, none, false, "Streaming"⟩ :=
  ⟨C3_amended_snapshot_live.1 25 none c3LiveConst noExtStop c3Items c3State c3CR
      (by decide) (by decide),
   C3_amended_snapshot_live.2 1 25 c3LiveConst noExtStop [] 0 100 [] false "Streaming"
      (by decide)⟩

set_option maxRecDepth 10000 in
/-- C7: with constant sampling settings the streaming phase ends exactly when the
running total (packet.numPackets × streamSamplesPerPacket summed per incoming packet,
checked once per packet at the top of the loop) first reaches or exceeds the target
t_integrate × rate × nchannels — the loop result is fully characterized by
firstHitFrom, the reference formulation of the spec; a stop observed at a check ends
the phase at once without consuming a packet.  In the section-8 scenario (channels
[0, 2], rate 5000, 2 s) the target is 20000 aggregate samples, sixteen 1250-sample
packets hit it exactly, the cycle buffers precisely those sixteen packets and raises
data-ready, and the fetched Window has dropped = 0 with 10000 samples in each of the
two channels. -/
theorem C7_integration_target :
    (∀ (nch spp : ℕ) (t r : ℚ) (status : String) (packets : List RawPacket)
       (i count : ℕ) (buf : List RawPacket),
       streamLoop nch spp (fun _ => (t, r)) noExtStop (packets.map StreamItem.pkt)
           i count buf false status
         = match firstHitFrom spp (t * r * (nch : ℚ)) packets count with
           | none => none
           | some pr => some ⟨buf ++ packets.take pr.1, pr.2, none, false, status⟩) ∧
    (∀ (nch spp : ℕ) (live : ℕ → ℚ × ℚ) (extStop : ℕ → Bool)
       (items : List StreamItem) (i count : ℕ) (buf : List RawPacket) (status : String),
       (count : ℚ) < (live i).1 * (live i).2 * (nch : ℚ) →
       streamLoop nch spp live extStop items i count buf true status
         = some ⟨buf, count, none, true, status⟩) ∧
    c7State.t_integrate * (c7State.rate : ℚ) * (c7State.channels.length : ℚ) = 20000 ∧
    firstHitFrom 25 20000 c7Packets 0 = some (16, 20000) ∧
    runCycle 25 none c7Live noExtStop c7Items c7State
      = some ⟨c7PostState, CycleOutcome.normal, some ([0, 2], 5000), none⟩ ∧
    (∃ w s2, fetch_data (rrDecode c7Names 25) true c7PostState = (Except.ok w, s2) ∧
      w.dropped = 0 ∧ (getChan w.channels "AIN0").length = 10000 ∧
      (getChan w.channels "AIN2").length = 10000) := by
  refine ⟨fun nch spp t r status packets i count buf =>
      streamLoop_const nch spp t r status packets i count buf,
    ?_, by decide, by decide, by decide, ?_⟩
  · intro nch spp live extStop items i count buf status hc
    cases items <;> simp [streamLoop, hc]
  · have hc0 : (contrib (rrDecode c7Names 25 c7Packet) "AIN0").length = 625 := by decide
    have hc2 : (contrib (rrDecode c7Names 25 c7Packet) "AIN2").length = 625 := by decide
    have hrepl : c7Packets = List.replicate 16 c7Packet := rfl
    have hlen : ∀ kk : String, (contrib (rrDecode c7Names 25 c7Packet) kk).length = 625 →
        (getChan (drain (rrDecode c7Names 25) c7Packets).1 kk).length = 10000 := by
      intro kk hk
      rw [(drain_spec (rrDecode c7Names 25) c7Packets).1 kk, hrepl,
        List.map_replicate, List.length_flatten, List.map_replicate, hk,
        List.sum_const_nat]
    have hdrop : (drain (rrDecode c7Names 25) c7Packets).2 = 0 := by
      rw [(drain_spec (rrDecode c7Names 25) c7Packets).2, hrepl, List.map_replicate]
      simp [c7Packet]
    have hA := hlen "AIN0" hc0
    have hB := hlen "AIN2" hc2
    have hne : (drain (rrDecode c7Names 25) c7Packets).1 ≠ [] := by
      intro hnil
      rw [hnil] at hA
      simp [getChan] at hA
    obtain ⟨m, hm⟩ := pyMax_of_ne_nil
      ((drain (rrDecode c7Names 25) c7Packets).1.map fun e => e.2.length)
      (by simpa using hne)
    have hbuf : c7PostState.buffer = c7Packets := rfl
    have hfetch : fetch_data (rrDecode c7Names 25) true c7PostState
        = (Except.ok ⟨5000, m, (drain (rrDecode c7Names 25) c7Packets).1,
            (drain (rrDecode c7Names 25) c7Packets).2⟩,
           { c7PostState with buffer := [], data_request := true }) := by
      simp only [fetch_data, hbuf, hm]
      rfl
    exact ⟨_, _, hfetch, hdrop, hA, hB⟩

/-- C7 witness: a stop already observed at the first check ends the scenario phase at
once, consuming nothing. -/
theorem C7_witness :
    streamLoop 2 25 c7Live noExtStop c7Items 0 0 [] true "Streaming"
      = some ⟨[], 0, none, true, "Streaming"⟩ :=
  C7_integration_target.2.1 2 25 c7Live noExtStop c7Items 0 0 [] "Streaming" (by decide)
